import Mathlib

/-!
Shallow embedding of the Salesforce metadata deployment orchestrator
(src/salesforce/metadata-service.ts, src/salesforce-client.ts, src/models.ts).

Remote interaction is modelled as a trace of issued calls plus an outcome.
The remote platform is an environment of oracles: each remote call either
returns a response or throws (Except).  Thrown JS errors are modelled by the
inductive JsError, carrying the data that the source interpolates into the
thrown Error message.  try/finally follows JavaScript semantics: the finally
block runs on every exit path, and an error thrown inside finally replaces
the in-flight outcome.
-/

namespace SfOrchestrator

/-- CreateApexClassRequest from models.ts: className, body, optional apiVersion.
JS numbers are modelled as rationals. -/
structure CreateApexClassRequest where
  className : String
  body : String
  apiVersion : Option ℚ
deriving DecidableEq

/-- CreateLWCRequest from models.ts.  isExposed is Option Bool because the
source validation distinguishes the undefined case; targets is Option since
the manifest template guards it with a JS truthiness test. -/
structure CreateLWCRequest where
  componentName : String
  masterLabel : String
  isExposed : Option Bool
  targets : Option (List String)
  htmlContent : String
  jsContent : String
  apiVersion : Option ℚ
deriving DecidableEq

/-- Errors thrown by the orchestrator; each constructor carries the data the
source interpolates into the corresponding thrown Error message.  `api` stands
for an error raised by the API client layer (injected by the environment). -/
inductive JsError where
  | validation (tool : String) (missing : List String)
  | api (message : String)
  | deployFailed (state : String)
  | pollTimeout (timeoutSeconds : Nat) (lastState : Option String)
deriving DecidableEq

/-- The remote calls issued through SalesforceApiClient.toolingApi, carrying
the request payload fields the claims are about. -/
inductive SfCall where
  | containerCreate (name : String)
  | apexQuery (className : String)
  | apexCreate (fullName : String) (body : String) (apiVersion : ℚ)
  | apexMemberCreate (containerId : String) (contentEntityId : String) (body : String)
  | deployTrigger (containerId : String)
  | statusQuery (deployId : String)
  | containerDelete (containerId : String)
  | lwcQuery (developerName : String)
  | bundleCreate (fullName : String) (apiVersion : ℚ) (isExposed : Option Bool) (masterLabel : String)
  | resourceCreate (bundleId : String) (filePath : String) (format : String) (source : String)
  | bundleMemberCreate (containerId : String) (contentEntityId : String)
deriving DecidableEq

/-- The `{ success: true, message }` result object. -/
structure ToolResult where
  success : Bool
  message : String
deriving DecidableEq

deriving instance DecidableEq for Except

/-- The success payload returned by the tool methods. -/
def okResult (message : String) : ToolResult := { success := true, message := message }

/-- JS `x || d` on an optional number: undefined and 0 are falsy (0 is the
only falsy value representable in the rational model of JS numbers). -/
def jsNumOr (v : Option ℚ) (d : ℚ) : ℚ :=
  match v with
  | none => d
  | some x => if x = 0 then d else x

/-- Decimal digits of the fractional part rem/den of a nonnegative rational,
as JS number-to-string printing produces for finite decimals; fuel bounds the
number of digits. -/
def fracDigitsAux (den : Nat) : Nat → Nat → String
  | _, 0 => ""
  | rem, n + 1 =>
    if rem = 0 then ""
    else
      let r10 := rem * 10
      toString (r10 / den) ++ fracDigitsAux den (r10 % den) n

/-- JS template-literal rendering of a number, for the finite-decimal values
that occur as API versions: integers print without a decimal point. -/
def jsNumToString (q : ℚ) : String :=
  let sign := if q.num < 0 then "-" else ""
  let n := q.num.natAbs
  let ip := n / q.den
  let rem := n % q.den
  sign ++ toString ip ++ (if rem = 0 then "" else "." ++ fracDigitsAux q.den rem 20)

/-- JS template-literal rendering of a possibly-undefined boolean. -/
def jsOptBoolToString : Option Bool → String
  | none => "undefined"
  | some true => "true"
  | some false => "false"

/-- JS Array.prototype.join with a separator: empty array gives the empty
string. -/
def joinSep (sep : String) : List String → String
  | [] => ""
  | [x] => x
  | x :: xs => x ++ sep ++ joinSep sep xs

/-- The targets interpolation of the js-meta.xml template in
MetadataService.createLWC: a truthiness test on params.targets (an array,
even empty, is truthy), then map each target to a child element and join. -/
def renderTargets (targets : Option (List String)) : String :=
  match targets with
  | none => ""
  | some ts => joinSep "\n        " (ts.map (fun t => "<target>" ++ t ++ "</target>"))

/-- The generated .js-meta.xml manifest of MetadataService.createLWC. -/
def metaXmlContent (p : CreateLWCRequest) : String :=
  "<?xml version=\"1.0\" encoding=\"UTF-8\"?>\n" ++
  "<LightningComponentBundle xmlns=\"http://soap.sforce.com/2006/04/metadata\">\n" ++
  "    <apiVersion>" ++ jsNumToString (jsNumOr p.apiVersion 59) ++ "</apiVersion>\n" ++
  "    <isExposed>" ++ jsOptBoolToString p.isExposed ++ "</isExposed>\n" ++
  "    <masterLabel>" ++ p.masterLabel ++ "</masterLabel>\n" ++
  "    <targets>" ++ renderTargets p.targets ++ "</targets>\n" ++
  "</LightningComponentBundle>"

/-- The missing-parameter list built by createApexClass validation
(`[cond ? name : null, ...].filter(Boolean)`). -/
def apexMissingParams (p : CreateApexClassRequest) : List String :=
  (if p.className = "" then ["className"] else []) ++
  (if p.body = "" then ["body"] else [])

/-- The missing-parameter list built by createLWC validation. -/
def lwcMissingParams (p : CreateLWCRequest) : List String :=
  (if p.componentName = "" then ["componentName"] else []) ++
  (if p.htmlContent = "" then ["htmlContent"] else []) ++
  (if p.jsContent = "" then ["jsContent"] else []) ++
  (if p.masterLabel = "" then ["masterLabel"] else []) ++
  (if p.isExposed = none then ["isExposed"] else [])

/-- The terminal deploy states checked by pollDeployStatus. -/
def finalStates : List String := ["Completed", "Failed", "Error", "Aborted"]

/-- The polling loop of MetadataService.pollDeployStatus: i queries already
issued, remaining iterations, last observed state.  Each iteration issues one
status query; the oracle may itself throw.  Returns the total number of
status queries issued, and either the terminal State, a propagated query
error, or the timeout error carrying the last observed state. -/
def pollAux (statusR : Nat → Except JsError String) (timeoutSeconds : Nat) :
    Nat → Nat → Option String → Nat × Except JsError String
  | i, 0, last => (i, .error (.pollTimeout timeoutSeconds last))
  | i, r + 1, _ =>
    match statusR i with
    | .error e => (i + 1, .error e)
    | .ok s =>
      if s ∈ finalStates then (i + 1, .ok s)
      else pollAux statusR timeoutSeconds (i + 1) r (some s)

/-- MetadataService.pollDeployStatus, abstracted over the status oracle; the
returned deploy result is represented by its State field, which is all the
callers inspect. -/
def pollDeployStatus (statusR : Nat → Except JsError String) (timeoutSeconds : Nat) :
    Nat × Except JsError String :=
  pollAux statusR timeoutSeconds 0 timeoutSeconds none

/-- Environment of remote-call oracles for createApexClass: the response (or
thrown error) of each remote call the method issues, and the clock used for
the container name. -/
structure ApexEnv where
  now : Nat
  containerR : Except JsError String
  queryR : Except JsError (List String)
  classCreateR : Except JsError String
  memberR : Except JsError Unit
  triggerR : Except JsError String
  statusR : Nat → Except JsError String
  deleteR : Except JsError Unit

/-- The terminal-state check after polling (steps 4 of createApexClass and 6
of the container-based createLWC): a poll error propagates; a non-Completed
terminal state becomes the deploy-failed error; Completed yields the success
payload. -/
def deployFinish (okMsg : String) : Except JsError String → Except JsError ToolResult
  | .error e => .error e
  | .ok st => if st = "Completed" then .ok (okResult okMsg) else .error (.deployFailed st)

/-- The try-block of MetadataService.createApexClass: existence query,
create-if-absent, container member, deploy trigger, poll, terminal-state
check.  Returns the issued calls and the block's outcome. -/
def apexTryBody (env : ApexEnv) (p : CreateApexClassRequest) (containerId : String) :
    List SfCall × Except JsError ToolResult :=
  let queryCall := SfCall.apexQuery p.className
  match env.queryR with
  | .error e => ([queryCall], .error e)
  | .ok records =>
    let createCall := SfCall.apexCreate p.className p.body (jsNumOr p.apiVersion 59)
    let resolved : List SfCall × Except JsError String :=
      match records with
      | classId :: _ => ([], .ok classId)
      | [] =>
        match env.classCreateR with
        | .error e => ([createCall], .error e)
        | .ok newId => ([createCall], .ok newId)
    match resolved with
    | (resolveTrace, .error e) => (queryCall :: resolveTrace, .error e)
    | (resolveTrace, .ok classId) =>
      let memberCall := SfCall.apexMemberCreate containerId classId p.body
      match env.memberR with
      | .error e => (queryCall :: resolveTrace ++ [memberCall], .error e)
      | .ok _ =>
        let triggerCall := SfCall.deployTrigger containerId
        match env.triggerR with
        | .error e => (queryCall :: resolveTrace ++ [memberCall, triggerCall], .error e)
        | .ok deployId =>
          let polled := pollDeployStatus env.statusR 30
          (queryCall :: resolveTrace ++ [memberCall, triggerCall] ++
            List.replicate polled.1 (SfCall.statusQuery deployId),
           deployFinish ("Classe Apex '" ++ p.className ++ "' creata/aggiornata con successo.") polled.2)

/-- MetadataService.createApexClass: validation, container open (before the
try), guarded body, and a finally block that deletes the container.  Per
JavaScript semantics an error thrown by the finally block replaces the
in-flight outcome. -/
def createApexClass (env : ApexEnv) (p : CreateApexClassRequest) :
    List SfCall × Except JsError ToolResult :=
  if p.className = "" ∨ p.body = "" then
    ([], .error (.validation "createApexClass" (apexMissingParams p)))
  else
    let openCall := SfCall.containerCreate ("ApexContainer_" ++ toString env.now)
    match env.containerR with
    | .error e => ([openCall], .error e)
    | .ok containerId =>
      let body := apexTryBody env p containerId
      let closeCall := SfCall.containerDelete containerId
      match env.deleteR with
      | .error e => (openCall :: body.1 ++ [closeCall], .error e)
      | .ok _ => (openCall :: body.1 ++ [closeCall], body.2)

/-- The three LWC file resources of MetadataService.createLWC, in source
order: logic (.js) file, markup (.html) file, generated manifest last.
Each entry is (FilePath, Format, Source). -/
def lwcResources (p : CreateLWCRequest) : List (String × String × String) :=
  [("lwc/" ++ p.componentName ++ "/" ++ p.componentName ++ ".js", "JS", p.jsContent),
   ("lwc/" ++ p.componentName ++ "/" ++ p.componentName ++ ".html", "HTML", p.htmlContent),
   ("lwc/" ++ p.componentName ++ "/" ++ p.componentName ++ ".js-meta.xml", "XML", metaXmlContent p)]

/-- The sequential for-loop over LWC resources: each iteration issues one
LightningComponentResource create and awaits it before the next; the first
thrown error stops the loop. -/
def runResources (resourceR : Nat → Except JsError Unit) (bundleId : String) :
    List (String × String × String) → Nat → List SfCall × Except JsError Unit
  | [], _ => ([], .ok ())
  | (path, fmt, src) :: rest, i =>
    let ev := SfCall.resourceCreate bundleId path fmt src
    match resourceR i with
    | .error e => ([ev], .error e)
    | .ok _ =>
      let tail := runResources resourceR bundleId rest (i + 1)
      (ev :: tail.1, tail.2)

/-- Environment of remote-call oracles for the direct (container-free)
createLWC variant; resourceR is indexed by the position of the resource in
the loop. -/
structure LwcEnv where
  queryR : Except JsError (List String)
  bundleCreateR : Except JsError String
  resourceR : Nat → Except JsError Unit

/-- The bundle-header create call of createLWC. -/
def bundleCreateCall (p : CreateLWCRequest) : SfCall :=
  SfCall.bundleCreate p.componentName (jsNumOr p.apiVersion 59) p.isExposed p.masterLabel

/-- The loop body applied after resolving the bundle id in the direct
createLWC variant: sequential resource writes then the success payload. -/
def lwcWriteResources (env : LwcEnv) (p : CreateLWCRequest) (pre : List SfCall)
    (bundleId : String) : List SfCall × Except JsError ToolResult :=
  match runResources env.resourceR bundleId (lwcResources p) 0 with
  | (ltr, .error e) => (pre ++ ltr, .error e)
  | (ltr, .ok _) =>
    (pre ++ ltr, .ok (okResult ("Componente LWC '" ++ p.componentName ++ "' creato/aggiornato con successo.")))

/-- MetadataService.createLWC, direct variant (no MetadataContainer):
validation, bundle existence query, create-if-absent, then the sequential
resource loop; the surrounding try/catch only logs and rethrows, so it is
outcome-preserving. -/
def createLWCDirect (env : LwcEnv) (p : CreateLWCRequest) :
    List SfCall × Except JsError ToolResult :=
  if p.componentName = "" ∨ p.htmlContent = "" ∨ p.jsContent = "" ∨
      p.masterLabel = "" ∨ p.isExposed = none then
    ([], .error (.validation "createLWC" (lwcMissingParams p)))
  else
    let queryCall := SfCall.lwcQuery p.componentName
    match env.queryR with
    | .error e => ([queryCall], .error e)
    | .ok records =>
      match records with
      | bid :: _ => lwcWriteResources env p [queryCall] bid
      | [] =>
        match env.bundleCreateR with
        | .error e => ([queryCall, bundleCreateCall p], .error e)
        | .ok bid => lwcWriteResources env p [queryCall, bundleCreateCall p] bid

/-- Environment of remote-call oracles for the container-based createLWC
variant. -/
structure LwcCEnv where
  now : Nat
  containerR : Except JsError String
  queryR : Except JsError (List String)
  bundleCreateR : Except JsError String
  resourceR : Nat → Except JsError Unit
  memberR : Except JsError Unit
  triggerR : Except JsError String
  statusR : Nat → Except JsError String
  deleteR : Except JsError Unit

/-- The tail of the container-based createLWC try-block after the resource
loop succeeded: bundle member, deploy trigger, 60-second poll,
terminal-state check. -/
def lwcDeployTail (env : LwcCEnv) (p : CreateLWCRequest) (containerId : String)
    (pre : List SfCall) (bundleId : String) : List SfCall × Except JsError ToolResult :=
  let memberCall := SfCall.bundleMemberCreate containerId bundleId
  match env.memberR with
  | .error e => (pre ++ [memberCall], .error e)
  | .ok _ =>
    let triggerCall := SfCall.deployTrigger containerId
    match env.triggerR with
    | .error e => (pre ++ [memberCall, triggerCall], .error e)
    | .ok deployId =>
      let polled := pollDeployStatus env.statusR 60
      (pre ++ [memberCall, triggerCall] ++
        List.replicate polled.1 (SfCall.statusQuery deployId),
       deployFinish ("Componente LWC '" ++ p.componentName ++ "' creato/aggiornato con successo.") polled.2)

/-- The container-based createLWC try-block from the resource loop on, for a
resolved bundle id. -/
def lwcContainerAfterResolve (env : LwcCEnv) (p : CreateLWCRequest) (containerId : String)
    (pre : List SfCall) (bundleId : String) : List SfCall × Except JsError ToolResult :=
  match runResources env.resourceR bundleId (lwcResources p) 0 with
  | (ltr, .error e) => (pre ++ ltr, .error e)
  | (ltr, .ok _) => lwcDeployTail env p containerId (pre ++ ltr) bundleId

/-- The try-block of the container-based createLWC: bundle existence query,
create-if-absent, sequential resource loop, bundle member, deploy trigger,
60-second poll, terminal-state check. -/
def lwcContainerTryBody (env : LwcCEnv) (p : CreateLWCRequest) (containerId : String) :
    List SfCall × Except JsError ToolResult :=
  let queryCall := SfCall.lwcQuery p.componentName
  match env.queryR with
  | .error e => ([queryCall], .error e)
  | .ok records =>
    match records with
    | bid :: _ => lwcContainerAfterResolve env p containerId [queryCall] bid
    | [] =>
      match env.bundleCreateR with
      | .error e => ([queryCall, bundleCreateCall p], .error e)
      | .ok bid => lwcContainerAfterResolve env p containerId [queryCall, bundleCreateCall p] bid

/-- The container-based createLWC variant: validation, container open
(before the try), guarded body, and a finally block that deletes the
container, with JavaScript finally semantics. -/
def createLWCContainer (env : LwcCEnv) (p : CreateLWCRequest) :
    List SfCall × Except JsError ToolResult :=
  if p.componentName = "" ∨ p.htmlContent = "" ∨ p.jsContent = "" ∨
      p.masterLabel = "" ∨ p.isExposed = none then
    ([], .error (.validation "createLWC" (lwcMissingParams p)))
  else
    let openCall := SfCall.containerCreate ("LWCContainer_" ++ toString env.now)
    match env.containerR with
    | .error e => ([openCall], .error e)
    | .ok containerId =>
      let body := lwcContainerTryBody env p containerId
      let closeCall := SfCall.containerDelete containerId
      match env.deleteR with
      | .error e => (openCall :: body.1 ++ [closeCall], .error e)
      | .ok _ => (openCall :: body.1 ++ [closeCall], body.2)

/-- Predicate picking container-delete calls out of a trace. -/
def isContainerDelete : SfCall → Bool
  | .containerDelete _ => true
  | _ => false

/-- Predicate picking the four call kinds whose order claim C5 fixes. -/
def isApexLifecycleCall : SfCall → Bool
  | .apexCreate _ _ _ => true
  | .apexMemberCreate _ _ _ => true
  | .deployTrigger _ => true
  | .containerDelete _ => true
  | _ => false

/-- Predicate picking ApexClass create and ApexClassMember calls. -/
def isApexCreateOrMember : SfCall → Bool
  | .apexCreate _ _ _ => true
  | .apexMemberCreate _ _ _ => true
  | _ => false

/-- Predicate picking LightningComponentResource create calls. -/
def isResourceCreate : SfCall → Bool
  | .resourceCreate _ _ _ _ => true
  | _ => false

end SfOrchestrator


namespace SfOrchestrator

/-- One polling step past a non-terminal state moves to the next iteration. -/
theorem pollAux_ok_final (f : Nat → String) (t : Nat) :
    ∀ (n i r : Nat) (last : Option String),
      (∀ j, j < n → f (i + j) ∉ finalStates) →
      f (i + n) ∈ finalStates → n < r →
      pollAux (fun k => Except.ok (f k)) t i r last = (i + n + 1, Except.ok (f (i + n))) := by
  intro n
  induction n with
  | zero =>
    intro i r last _ hfin hlt
    match r, hlt with
    | r' + 1, _ =>
      simp only [Nat.add_zero] at hfin ⊢
      simp [pollAux, hfin]
  | succ n ih =>
    intro i r last hpre hfin hlt
    match r, hlt with
    | r' + 1, hlt =>
      have h0 : f i ∉ finalStates := by
        have := hpre 0 (Nat.succ_pos n)
        simpa using this
      have hpre' : ∀ j, j < n → f (i + 1 + j) ∉ finalStates := by
        intro j hj
        have := hpre (j + 1) (by omega)
        have heq : i + (j + 1) = i + 1 + j := by omega
        rwa [heq] at this
      have hfin' : f (i + 1 + n) ∈ finalStates := by
        have heq : i + (n + 1) = i + 1 + n := by omega
        rwa [heq] at hfin
      have hrec := ih (i + 1) r' (some (f i)) hpre' hfin' (by omega)
      simp only [pollAux, h0, if_false]
      rw [hrec]
      have heq : i + 1 + n = i + (n + 1) := by omega
      rw [heq]

/-- Exhausting the iteration budget on non-terminal states yields the
timeout error carrying the last observed state. -/
theorem pollAux_ok_timeout (f : Nat → String) (t : Nat) :
    ∀ (r i : Nat) (last : Option String),
      (∀ j, j < r → f (i + j) ∉ finalStates) →
      pollAux (fun k => Except.ok (f k)) t i r last =
        (i + r, Except.error (.pollTimeout t
          (if r = 0 then last else some (f (i + r - 1))))) := by
  intro r
  induction r with
  | zero => intro i last _; simp [pollAux]
  | succ r' ih =>
    intro i last h
    have h0 : f i ∉ finalStates := by
      have := h 0 (Nat.succ_pos r')
      simpa using this
    have h' : ∀ j, j < r' → f (i + 1 + j) ∉ finalStates := by
      intro j hj
      have := h (j + 1) (by omega)
      have heq : i + (j + 1) = i + 1 + j := by omega
      rwa [heq] at this
    have hrec := ih (i + 1) (some (f i)) h'
    simp only [pollAux, h0, if_false]
    rw [hrec]
    cases r' with
    | zero => simp
    | succ r'' =>
      have h1 : ¬ (r'' + 1 = 0) := by omega
      have h2 : ¬ (r'' + 1 + 1 = 0) := by omega
      simp only [h1, h2, if_false]
      have heq1 : i + 1 + (r'' + 1) = i + (r'' + 1 + 1) := by omega
      rw [heq1]

/-- C3: for any status sequence and any timeout, pollDeployStatus issues one
status query per iteration and returns at the first query whose State is
terminal (in finalStates = Completed/Failed/Error/Aborted), having issued
exactly n+1 queries when the first terminal state appears at query index n;
in particular, for the sequence [Queued, InProgress, Completed] and any
timeout of at least 3 it issues exactly 3 queries and returns the Completed
result without a timeout error. -/
theorem pollDeployStatus_returns_at_first_terminal (f : Nat → String) (t n : Nat)
    (hpre : ∀ j, j < n → f j ∉ finalStates)
    (hfin : f n ∈ finalStates) (hlt : n < t) :
    pollDeployStatus (fun k => Except.ok (f k)) t = (n + 1, Except.ok (f n)) := by
  have h := pollAux_ok_final f t n 0 t none (by simpa using hpre) (by simpa using hfin) hlt
  simpa [pollDeployStatus] using h

/-- Witness for C3: the sequence [Queued, InProgress, Completed] with a
30-second budget yields exactly 3 queries and the Completed result. -/
theorem pollDeployStatus_returns_at_first_terminal_witness :
    pollDeployStatus
      (fun k => Except.ok (if k = 0 then "Queued" else if k = 1 then "InProgress" else "Completed"))
      30 = (3, Except.ok "Completed") := by
  have h := pollDeployStatus_returns_at_first_terminal
    (fun k => if k = 0 then "Queued" else if k = 1 then "InProgress" else "Completed")
    30 2 (by decide) (by decide) (by decide)
  simpa using h

/-- C4: when no status query within the budget returns a terminal state,
pollDeployStatus issues exactly timeoutSeconds queries and then raises the
timeout error carrying the last observed state. -/
theorem pollDeployStatus_timeout_carries_last_state (f : Nat → String) (t : Nat)
    (ht : 1 ≤ t) (h : ∀ j, j < t → f j ∉ finalStates) :
    pollDeployStatus (fun k => Except.ok (f k)) t =
      (t, Except.error (.pollTimeout t (some (f (t - 1))))) := by
  have haux := pollAux_ok_timeout f t t 0 none (by simpa using h)
  have hne : ¬ (t = 0) := by omega
  simpa [pollDeployStatus, hne] using haux

/-- Witness for C4: a deploy stuck in InProgress for a 5-second budget times
out after exactly 5 queries, carrying InProgress as the last known state. -/
theorem pollDeployStatus_timeout_carries_last_state_witness :
    pollDeployStatus (fun _ => Except.ok "InProgress") 5 =
      (5, Except.error (.pollTimeout 5 (some "InProgress"))) := by
  have h := pollDeployStatus_timeout_carries_last_state (fun _ => "InProgress") 5
    (by decide) (by decide)
  simpa using h

/-- Filtering a replicated element by a predicate that rejects it gives the
empty list. -/
theorem filter_replicate_eq_nil {α : Type} (p : α → Bool) (n : Nat) (a : α)
    (hp : p a = false) : (List.replicate n a).filter p = [] := by
  induction n with
  | zero => simp
  | succ n ih => simp [List.replicate_succ, hp, ih]

/-- Call kinds that can appear in the apexTryBody trace. -/
def isApexBodyCall : SfCall → Bool
  | .apexQuery _ => true
  | .apexCreate _ _ _ => true
  | .apexMemberCreate _ _ _ => true
  | .deployTrigger _ => true
  | .statusQuery _ => true
  | _ => false

/-- Every call in the apexTryBody trace is a body call: in particular the
guarded section never creates or deletes a container. -/
theorem apexTryBody_calls (env : ApexEnv) (p : CreateApexClassRequest) (cid : String) :
    ∀ c ∈ (apexTryBody env p cid).1, isApexBodyCall c = true := by
  unfold apexTryBody
  cases env.queryR with
  | error e => simp [isApexBodyCall]
  | ok records =>
    cases records with
    | cons c rest =>
      cases env.memberR with
      | error e => simp [isApexBodyCall]
      | ok u =>
        cases env.triggerR with
        | error e => simp [isApexBodyCall]
        | ok did =>
          intro c hc
          simp only [List.mem_cons, List.mem_append, List.mem_replicate] at hc
          casesm* _ ∨ _, _ ∧ _ <;> simp_all [isApexBodyCall]
    | nil =>
      cases env.classCreateR with
      | error e => simp [isApexBodyCall]
      | ok newId =>
        cases env.memberR with
        | error e => simp [isApexBodyCall]
        | ok u =>
          cases env.triggerR with
          | error e => simp [isApexBodyCall]
          | ok did =>
            intro c hc
            simp only [List.mem_cons, List.mem_append, List.mem_replicate] at hc
            casesm* _ ∨ _, _ ∧ _ <;> simp_all [isApexBodyCall]

/-- Every call emitted by the sequential resource loop is a
LightningComponentResource create. -/
theorem runResources_calls (f : Nat → Except JsError Unit) (bid : String) :
    ∀ rs i, ∀ c ∈ (runResources f bid rs i).1, isResourceCreate c = true := by
  intro rs
  induction rs with
  | nil => intro i c hc; simp [runResources] at hc
  | cons r rest ih =>
    intro i c hc
    obtain ⟨path, fmt, src⟩ := r
    simp only [runResources] at hc
    cases hfi : f i with
    | error e =>
      rw [hfi] at hc
      simp only [List.mem_singleton] at hc
      simp [hc, isResourceCreate]
    | ok u =>
      rw [hfi] at hc
      simp only [List.mem_cons] at hc
      rcases hc with h | h
      · simp [h, isResourceCreate]
      · exact ih (i + 1) c h

/-- Call kinds that can appear in the container-based createLWC try-block. -/
def isLwcBodyCall : SfCall → Bool
  | .lwcQuery _ => true
  | .bundleCreate _ _ _ _ => true
  | .resourceCreate _ _ _ _ => true
  | .bundleMemberCreate _ _ => true
  | .deployTrigger _ => true
  | .statusQuery _ => true
  | _ => false


/-- Calls of the deploy tail are the prefix plus body calls. -/
theorem lwcDeployTail_calls (env : LwcCEnv) (p : CreateLWCRequest) (cid : String)
    (pre : List SfCall) (bid : String) :
    ∀ c ∈ (lwcDeployTail env p cid pre bid).1, c ∈ pre ∨ isLwcBodyCall c = true := by
  unfold lwcDeployTail
  cases env.memberR with
  | error e =>
    intro c hc
    simp only [List.mem_append, List.mem_singleton] at hc
    rcases hc with h | h
    · exact Or.inl h
    · subst h; exact Or.inr rfl
  | ok u =>
    cases env.triggerR with
    | error e =>
      intro c hc
      simp only [List.mem_append, List.mem_cons, List.not_mem_nil, or_false] at hc
      rcases hc with h | h | h
      · exact Or.inl h
      · subst h; exact Or.inr rfl
      · subst h; exact Or.inr rfl
    | ok did =>
      intro c hc
      simp only [List.mem_append, List.mem_cons, List.mem_replicate,
        List.not_mem_nil, or_false] at hc
      rcases hc with (h | h | h) | ⟨-, h⟩
      · exact Or.inl h
      · subst h; exact Or.inr rfl
      · subst h; exact Or.inr rfl
      · subst h; exact Or.inr rfl

/-- Calls after bundle resolution are the prefix plus body calls. -/
theorem lwcContainerAfterResolve_calls (env : LwcCEnv) (p : CreateLWCRequest)
    (cid : String) (pre : List SfCall) (bid : String) :
    ∀ c ∈ (lwcContainerAfterResolve env p cid pre bid).1, c ∈ pre ∨ isLwcBodyCall c = true := by
  unfold lwcContainerAfterResolve
  have hrun0 := runResources_calls env.resourceR bid (lwcResources p) 0
  rcases hL : runResources env.resourceR bid (lwcResources p) 0 with ⟨ltr, lout⟩
  rw [hL] at hrun0
  have hltr : ∀ c ∈ ltr, isLwcBodyCall c = true := by
    intro c hc
    have h1 := hrun0 c hc
    cases c <;> simp_all [isResourceCreate, isLwcBodyCall]
  cases lout with
  | error e =>
    intro c hc
    simp only [List.mem_append] at hc
    rcases hc with h | h
    · exact Or.inl h
    · exact Or.inr (hltr c h)
  | ok u =>
    intro c hc
    have h2 := lwcDeployTail_calls env p cid (pre ++ ltr) bid c hc
    rcases h2 with h | h
    · simp only [List.mem_append] at h
      rcases h with h | h
      · exact Or.inl h
      · exact Or.inr (hltr c h)
    · exact Or.inr h

/-- Every call in the lwcContainerTryBody trace is a body call: the guarded
section never creates or deletes a container. -/
theorem lwcContainerTryBody_calls (env : LwcCEnv) (p : CreateLWCRequest) (cid : String) :
    ∀ c ∈ (lwcContainerTryBody env p cid).1, isLwcBodyCall c = true := by
  unfold lwcContainerTryBody
  cases env.queryR with
  | error e => simp [isLwcBodyCall]
  | ok records =>
    cases records with
    | cons bid rest =>
      intro c hc
      have h := lwcContainerAfterResolve_calls env p cid [SfCall.lwcQuery p.componentName] bid c hc
      rcases h with h | h
      · simp only [List.mem_singleton] at h; subst h; rfl
      · exact h
    | nil =>
      cases env.bundleCreateR with
      | error e =>
        intro c hc
        simp only [List.mem_cons, List.not_mem_nil, or_false] at hc
        rcases hc with h | h
        · subst h; rfl
        · subst h; simp [bundleCreateCall, isLwcBodyCall]
      | ok bid =>
        intro c hc
        have h := lwcContainerAfterResolve_calls env p cid
          [SfCall.lwcQuery p.componentName, bundleCreateCall p] bid c hc
        rcases h with h | h
        · simp only [List.mem_cons, List.not_mem_nil, or_false] at h
          rcases h with h | h
          · subst h; rfl
          · subst h; simp [bundleCreateCall, isLwcBodyCall]
        · exact h

/-- Once the container is opened, the createApexClass trace is the open call,
the guarded body's calls, then the single container delete issued by the
finally block. -/
theorem createApexClass_decomp (env : ApexEnv) (p : CreateApexClassRequest)
    (hv : ¬(p.className = "" ∨ p.body = "")) (cid : String)
    (hc : env.containerR = .ok cid) :
    (createApexClass env p).1 =
      SfCall.containerCreate ("ApexContainer_" ++ toString env.now) ::
        (apexTryBody env p cid).1 ++ [SfCall.containerDelete cid] := by
  unfold createApexClass
  rw [if_neg hv, hc]
  cases env.deleteR <;> simp

/-- Once the container is opened, the container-based createLWC trace is the
open call, the guarded body's calls, then the single container delete. -/
theorem createLWCContainer_decomp (env : LwcCEnv) (p : CreateLWCRequest)
    (hv : ¬(p.componentName = "" ∨ p.htmlContent = "" ∨ p.jsContent = "" ∨
      p.masterLabel = "" ∨ p.isExposed = none)) (cid : String)
    (hc : env.containerR = .ok cid) :
    (createLWCContainer env p).1 =
      SfCall.containerCreate ("LWCContainer_" ++ toString env.now) ::
        (lwcContainerTryBody env p cid).1 ++ [SfCall.containerDelete cid] := by
  unfold createLWCContainer
  rw [if_neg hv, hc]
  cases env.deleteR <;> simp

/-- The guarded section of createApexClass issues no container delete. -/
theorem apexTryBody_no_delete (env : ApexEnv) (p : CreateApexClassRequest) (cid : String) :
    (apexTryBody env p cid).1.filter isContainerDelete = [] := by
  rw [List.filter_eq_nil_iff]
  intro c hc
  have h := apexTryBody_calls env p cid c hc
  cases c <;> simp_all [isApexBodyCall, isContainerDelete]

/-- The guarded section of the container-based createLWC issues no container
delete. -/
theorem lwcContainerTryBody_no_delete (env : LwcCEnv) (p : CreateLWCRequest) (cid : String) :
    (lwcContainerTryBody env p cid).1.filter isContainerDelete = [] := by
  rw [List.filter_eq_nil_iff]
  intro c hc
  have h := lwcContainerTryBody_calls env p cid c hc
  cases c <;> simp_all [isLwcBodyCall, isContainerDelete]

/-- C1: whenever createApexClass or the container-based createLWC
successfully opens a MetadataContainer (validation passed and the container
create returned an id), the trace of the whole invocation contains exactly
one container-delete call, on that container's id, whatever the outcome of
every later remote call, of the poll, and of the terminal-state check. -/
theorem container_delete_exactly_once
    (envA : ApexEnv) (pA : CreateApexClassRequest) (cidA : String)
    (envL : LwcCEnv) (pL : CreateLWCRequest) (cidL : String)
    (hvA : ¬(pA.className = "" ∨ pA.body = ""))
    (hcA : envA.containerR = .ok cidA)
    (hvL : ¬(pL.componentName = "" ∨ pL.htmlContent = "" ∨ pL.jsContent = "" ∨
      pL.masterLabel = "" ∨ pL.isExposed = none))
    (hcL : envL.containerR = .ok cidL) :
    (createApexClass envA pA).1.filter isContainerDelete = [SfCall.containerDelete cidA] ∧
    (createLWCContainer envL pL).1.filter isContainerDelete = [SfCall.containerDelete cidL] := by
  constructor
  · rw [createApexClass_decomp envA pA hvA cidA hcA]
    simp [List.filter_append, apexTryBody_no_delete, isContainerDelete]
  · rw [createLWCContainer_decomp envL pL hvL cidL hcL]
    simp [List.filter_append, lwcContainerTryBody_no_delete, isContainerDelete]

/-- Environment for the C1 witness, apex side: the deploy ends in the
Failed terminal state. -/
def c1EnvA : ApexEnv :=
  { now := 1, containerR := .ok "ctA", queryR := .ok [], classCreateR := .ok "cls1",
    memberR := .ok (), triggerR := .ok "dep1", statusR := fun _ => .ok "Failed",
    deleteR := .ok () }

/-- Request for the C1 witness, apex side. -/
def c1ReqA : CreateApexClassRequest :=
  { className := "Foo", body := "class Foo", apiVersion := none }

/-- Environment for the C1 witness, LWC side: the second resource write
throws mid-sequence. -/
def c1EnvL : LwcCEnv :=
  { now := 2, containerR := .ok "ctL", queryR := .ok ["bid0"], bundleCreateR := .ok "bid1",
    resourceR := fun i => if i = 1 then .error (.api "resource boom") else .ok (),
    memberR := .ok (), triggerR := .ok "dep2", statusR := fun _ => .ok "Completed",
    deleteR := .ok () }

/-- Request for the C1 witness, LWC side. -/
def c1ReqL : CreateLWCRequest :=
  { componentName := "bar", masterLabel := "Bar", isExposed := some true,
    targets := some ["lightning__AppPage"], htmlContent := "<template></template>",
    jsContent := "export default class", apiVersion := none }

/-- Witness for C1: a failed apex deploy and an LWC invocation whose second
resource write throws both still delete their container exactly once. -/
theorem container_delete_exactly_once_witness :
    (createApexClass c1EnvA c1ReqA).1.filter isContainerDelete = [SfCall.containerDelete "ctA"] ∧
    (createLWCContainer c1EnvL c1ReqL).1.filter isContainerDelete = [SfCall.containerDelete "ctL"] :=
  container_delete_exactly_once c1EnvA c1ReqA "ctA" c1EnvL c1ReqL "ctL"
    (by decide) rfl (by decide) rfl

/-- Environment for the C2 counterexample: the existence query throws the
original error and the container delete in the finally block throws its own
error. -/
def c2EnvA : ApexEnv :=
  { now := 3, containerR := .ok "ctC", queryR := .error (.api "query boom"),
    classCreateR := .ok "cls2", memberR := .ok (), triggerR := .ok "dep3",
    statusR := fun _ => .ok "Completed", deleteR := .error (.api "delete boom") }

/-- Request for the C2 counterexample. -/
def c2ReqA : CreateApexClassRequest :=
  { className := "Foo", body := "class Foo", apiVersion := none }

/-- Counterexample to C2: the existence query throws E = api "query boom"
inside the guarded section and the container delete itself fails with
D = api "delete boom"; the invocation propagates D, not E, because a
JavaScript finally block that throws replaces the in-flight error. -/
theorem cleanup_error_masks_original_counterexample :
    c2EnvA.queryR = Except.error (JsError.api "query boom") ∧
    (createApexClass c2EnvA c2ReqA).2 = Except.error (JsError.api "delete boom") ∧
    JsError.api "delete boom" ≠ JsError.api "query boom" := by
  refine ⟨rfl, ?_, by decide⟩
  decide

/-- C2 amended: when the container delete in the finally block throws D, the
invocation of createApexClass or the container-based createLWC propagates D
- the cleanup failure replaces whatever outcome (success or original error)
the guarded section produced. -/
theorem cleanup_error_replaces_outcome
    (envA : ApexEnv) (pA : CreateApexClassRequest) (cidA : String) (dA : JsError)
    (envL : LwcCEnv) (pL : CreateLWCRequest) (cidL : String) (dL : JsError)
    (hvA : ¬(pA.className = "" ∨ pA.body = ""))
    (hcA : envA.containerR = .ok cidA)
    (hdA : envA.deleteR = .error dA)
    (hvL : ¬(pL.componentName = "" ∨ pL.htmlContent = "" ∨ pL.jsContent = "" ∨
      pL.masterLabel = "" ∨ pL.isExposed = none))
    (hcL : envL.containerR = .ok cidL)
    (hdL : envL.deleteR = .error dL) :
    (createApexClass envA pA).2 = Except.error dA ∧
    (createLWCContainer envL pL).2 = Except.error dL := by
  constructor
  · unfold createApexClass
    rw [if_neg hvA, hcA, hdA]
  · unfold createLWCContainer
    rw [if_neg hvL, hcL, hdL]

/-- Environment for the C2-amended witness, apex side. -/
def c2wEnvA : ApexEnv :=
  { now := 4, containerR := .ok "ctW", queryR := .error (.api "query boom"),
    classCreateR := .ok "cls3", memberR := .ok (), triggerR := .ok "dep4",
    statusR := fun _ => .ok "Completed", deleteR := .error (.api "delete boom") }

/-- Environment for the C2-amended witness, LWC side: the guarded section
succeeds, yet the delete failure still becomes the outcome. -/
def c2wEnvL : LwcCEnv :=
  { now := 5, containerR := .ok "ctX", queryR := .ok ["bid0"], bundleCreateR := .ok "bid1",
    resourceR := fun _ => .ok (), memberR := .ok (), triggerR := .ok "dep5",
    statusR := fun _ => .ok "Completed", deleteR := .error (.api "delete boom L") }

/-- Request for the C2-amended witness, LWC side. -/
def c2wReqL : CreateLWCRequest :=
  { componentName := "bar", masterLabel := "Bar", isExposed := some true,
    targets := some [], htmlContent := "<template></template>",
    jsContent := "export default class", apiVersion := none }

/-- Witness for the amended C2: concrete environments where the container
delete fails propagate the delete error. -/
theorem cleanup_error_replaces_outcome_witness :
    (createApexClass c2wEnvA c2ReqA).2 = Except.error (JsError.api "delete boom") ∧
    (createLWCContainer c2wEnvL c2wReqL).2 = Except.error (JsError.api "delete boom L") :=
  cleanup_error_replaces_outcome c2wEnvA c2ReqA "ctW" (.api "delete boom")
    c2wEnvL c2wReqL "ctX" (.api "delete boom L")
    (by decide) rfl rfl (by decide) rfl rfl

/-- Explicit trace of the guarded section on the create path (no existing
class, member and trigger accepted). -/
theorem apexTryBody_trace_createPath (env : ApexEnv) (p : CreateApexClassRequest)
    (cid newId did : String)
    (hq : env.queryR = .ok []) (hcc : env.classCreateR = .ok newId)
    (hm : env.memberR = .ok ()) (ht : env.triggerR = .ok did) :
    (apexTryBody env p cid).1 =
      SfCall.apexQuery p.className ::
        [SfCall.apexCreate p.className p.body (jsNumOr p.apiVersion 59)] ++
        [SfCall.apexMemberCreate cid newId p.body, SfCall.deployTrigger cid] ++
        List.replicate (pollDeployStatus env.statusR 30).1 (SfCall.statusQuery did) := by
  unfold apexTryBody
  rw [hq, hcc, hm, ht]

/-- C5: on a valid CodeClass request whose existence lookup returns zero
rows (and whose create, member and trigger calls are accepted), the
invocation's trace, restricted to ApexClass create, ApexClassMember, deploy
trigger and container delete calls, is exactly one of each, in that order. -/
theorem create_path_call_order (env : ApexEnv) (p : CreateApexClassRequest)
    (cid newId did : String)
    (hv : ¬(p.className = "" ∨ p.body = ""))
    (hc : env.containerR = .ok cid)
    (hq : env.queryR = .ok [])
    (hcc : env.classCreateR = .ok newId)
    (hm : env.memberR = .ok ())
    (ht : env.triggerR = .ok did) :
    (createApexClass env p).1.filter isApexLifecycleCall =
      [SfCall.apexCreate p.className p.body (jsNumOr p.apiVersion 59),
       SfCall.apexMemberCreate cid newId p.body,
       SfCall.deployTrigger cid,
       SfCall.containerDelete cid] := by
  rw [createApexClass_decomp env p hv cid hc,
    apexTryBody_trace_createPath env p cid newId did hq hcc hm ht]
  simp only [List.cons_append, List.filter_cons, List.filter_append]
  rw [filter_replicate_eq_nil isApexLifecycleCall _ (SfCall.statusQuery did) rfl]
  simp [isApexLifecycleCall]

/-- Environment for the C5 witness. -/
def c5Env : ApexEnv :=
  { now := 6, containerR := .ok "ct5", queryR := .ok [], classCreateR := .ok "cls5",
    memberR := .ok (), triggerR := .ok "dep6",
    statusR := fun i => .ok (if i = 0 then "Queued" else "Completed"), deleteR := .ok () }

/-- Request for the C5 witness. -/
def c5Req : CreateApexClassRequest :=
  { className := "Foo", body := "class Foo", apiVersion := none }

/-- Witness for C5 at a concrete create-path environment. -/
theorem create_path_call_order_witness :
    (createApexClass c5Env c5Req).1.filter isApexLifecycleCall =
      [SfCall.apexCreate "Foo" "class Foo" 59,
       SfCall.apexMemberCreate "ct5" "cls5" "class Foo",
       SfCall.deployTrigger "ct5",
       SfCall.containerDelete "ct5"] := by
  have h := create_path_call_order c5Env c5Req "ct5" "cls5" "dep6"
    (by decide) rfl rfl rfl rfl rfl
  simpa [c5Req, jsNumOr] using h

/-- On the update path (the lookup returned at least one row), the guarded
section's trace restricted to ApexClass create and ApexClassMember calls is
the single member call carrying the resolved id and the request body,
whatever the member, trigger and poll outcomes. -/
theorem apexTryBody_filter_updatePath (env : ApexEnv) (p : CreateApexClassRequest)
    (cid xid : String) (rest : List String)
    (hq : env.queryR = .ok (xid :: rest)) :
    (apexTryBody env p cid).1.filter isApexCreateOrMember =
      [SfCall.apexMemberCreate cid xid p.body] := by
  unfold apexTryBody
  rw [hq]
  cases env.memberR with
  | error e => simp [isApexCreateOrMember]
  | ok u =>
    cases env.triggerR with
    | error e => simp [isApexCreateOrMember]
    | ok did =>
      simp only [List.cons_append, List.nil_append, List.filter_cons, List.filter_append]
      rw [filter_replicate_eq_nil isApexCreateOrMember _ (SfCall.statusQuery did) rfl]
      simp [isApexCreateOrMember]

/-- C6: on a valid CodeClass request whose existence lookup returns at least
one row, the invocation issues zero ApexClass create calls and exactly one
ApexClassMember call, whose ContentEntityId is the id returned by the lookup
(used unchanged) and whose Body is the request's new body; no call kind in
the trace mutates the existing class record itself. -/
theorem update_path_no_create (env : ApexEnv) (p : CreateApexClassRequest)
    (cid xid : String) (rest : List String)
    (hv : ¬(p.className = "" ∨ p.body = ""))
    (hc : env.containerR = .ok cid)
    (hq : env.queryR = .ok (xid :: rest)) :
    (createApexClass env p).1.filter isApexCreateOrMember =
      [SfCall.apexMemberCreate cid xid p.body] := by
  rw [createApexClass_decomp env p hv cid hc]
  simp only [List.cons_append, List.filter_cons, List.filter_append]
  rw [apexTryBody_filter_updatePath env p cid xid rest hq]
  simp [isApexCreateOrMember, isContainerDelete]

/-- Environment for the C6 witness: the lookup finds an existing class. -/
def c6Env : ApexEnv :=
  { now := 7, containerR := .ok "ct6", queryR := .ok ["existing1"], classCreateR := .ok "unused",
    memberR := .ok (), triggerR := .ok "dep7", statusR := fun _ => .ok "Completed",
    deleteR := .ok () }

/-- Request for the C6 witness. -/
def c6Req : CreateApexClassRequest :=
  { className := "Foo", body := "class Foo v2", apiVersion := none }

/-- Witness for C6 at a concrete update-path environment. -/
theorem update_path_no_create_witness :
    (createApexClass c6Env c6Req).1.filter isApexCreateOrMember =
      [SfCall.apexMemberCreate "ct6" "existing1" "class Foo v2"] := by
  have h := update_path_no_create c6Env c6Req "ct6" "existing1" []
    (by decide) rfl rfl
  simpa [c6Req] using h

/-- When every resource write is accepted, the sequential loop emits one
create call per resource, in list order. -/
theorem runResources_trace_allOk (f : Nat → Except JsError Unit) (bid : String)
    (hf : ∀ i, f i = .ok ()) :
    ∀ rs i, runResources f bid rs i =
      (rs.map (fun r => SfCall.resourceCreate bid r.1 r.2.1 r.2.2), .ok ()) := by
  intro rs
  induction rs with
  | nil => intro i; rfl
  | cons r rest ih =>
    intro i
    obtain ⟨path, fmt, src⟩ := r
    unfold runResources
    rw [hf i, ih (i + 1)]
    simp

/-- C7: on a valid UI-bundle request whose lookup and resource writes are
accepted, the invocation of the (live, container-free) createLWC writes the
three file resources strictly sequentially - the loop awaits each create
before issuing the next - and in the fixed order: logic (.js) file first,
then markup (.html) file, then the generated manifest (.js-meta.xml) last. -/
theorem lwc_resources_sequential_order (env : LwcEnv) (p : CreateLWCRequest)
    (records : List String) (bid2 : String)
    (hv : ¬(p.componentName = "" ∨ p.htmlContent = "" ∨ p.jsContent = "" ∨
      p.masterLabel = "" ∨ p.isExposed = none))
    (hq : env.queryR = .ok records)
    (hb : env.bundleCreateR = .ok bid2)
    (hf : ∀ i, env.resourceR i = .ok ()) :
    ∃ bid, (createLWCDirect env p).1.filter isResourceCreate =
      [SfCall.resourceCreate bid
         ("lwc/" ++ p.componentName ++ "/" ++ p.componentName ++ ".js") "JS" p.jsContent,
       SfCall.resourceCreate bid
         ("lwc/" ++ p.componentName ++ "/" ++ p.componentName ++ ".html") "HTML" p.htmlContent,
       SfCall.resourceCreate bid
         ("lwc/" ++ p.componentName ++ "/" ++ p.componentName ++ ".js-meta.xml") "XML"
         (metaXmlContent p)] := by
  unfold createLWCDirect lwcWriteResources
  rw [if_neg hv, hq]
  cases records with
  | nil =>
    refine ⟨bid2, ?_⟩
    simp only [hb, runResources_trace_allOk env.resourceR bid2 hf]
    simp [lwcResources, isResourceCreate, bundleCreateCall]
  | cons bid rest =>
    refine ⟨bid, ?_⟩
    simp only [runResources_trace_allOk env.resourceR bid hf]
    simp [lwcResources, isResourceCreate]

/-- Environment for the C7 witness. -/
def c7Env : LwcEnv :=
  { queryR := .ok [], bundleCreateR := .ok "bid7", resourceR := fun _ => .ok () }

/-- Request for the C7 witness. -/
def c7Req : CreateLWCRequest :=
  { componentName := "bar", masterLabel := "Bar", isExposed := some true,
    targets := some ["lightning__AppPage"], htmlContent := "<template></template>",
    jsContent := "export default class", apiVersion := none }

/-- Witness for C7 at a concrete fresh-bundle environment. -/
theorem lwc_resources_sequential_order_witness :
    ∃ bid, (createLWCDirect c7Env c7Req).1.filter isResourceCreate =
      [SfCall.resourceCreate bid
         ("lwc/" ++ c7Req.componentName ++ "/" ++ c7Req.componentName ++ ".js") "JS" c7Req.jsContent,
       SfCall.resourceCreate bid
         ("lwc/" ++ c7Req.componentName ++ "/" ++ c7Req.componentName ++ ".html") "HTML" c7Req.htmlContent,
       SfCall.resourceCreate bid
         ("lwc/" ++ c7Req.componentName ++ "/" ++ c7Req.componentName ++ ".js-meta.xml") "XML"
         (metaXmlContent c7Req)] :=
  lwc_resources_sequential_order c7Env c7Req [] "bid7"
    (by decide) rfl rfl (fun _ => rfl)

/-- C8: on a valid UI-bundle request whose remote calls are accepted, the
invocation succeeds (no error is thrown, also when targets is the empty
array, which is truthy in JS), and the generated manifest echoes apiVersion,
isExposed, masterLabel and the target list: an empty target list renders as
an empty targets section with the tag present, and a two-element target
list renders as two target entries in input order. -/
theorem manifest_rendering (env : LwcEnv) (p : CreateLWCRequest)
    (records : List String) (bid2 : String)
    (hv : ¬(p.componentName = "" ∨ p.htmlContent = "" ∨ p.jsContent = "" ∨
      p.masterLabel = "" ∨ p.isExposed = none))
    (hq : env.queryR = .ok records)
    (hb : env.bundleCreateR = .ok bid2)
    (hf : ∀ i, env.resourceR i = .ok ()) :
    (createLWCDirect env p).2 =
      .ok (okResult ("Componente LWC '" ++ p.componentName ++ "' creato/aggiornato con successo.")) ∧
    metaXmlContent p =
      "<?xml version=\"1.0\" encoding=\"UTF-8\"?>\n<LightningComponentBundle xmlns=\"http://soap.sforce.com/2006/04/metadata\">\n    <apiVersion>" ++
        jsNumToString (jsNumOr p.apiVersion 59) ++ "</apiVersion>\n    <isExposed>" ++
        jsOptBoolToString p.isExposed ++ "</isExposed>\n    <masterLabel>" ++
        p.masterLabel ++ "</masterLabel>\n    <targets>" ++
        renderTargets p.targets ++ "</targets>\n</LightningComponentBundle>" ∧
    (p.targets = some [] → renderTargets p.targets = "") ∧
    (∀ a b, p.targets = some [a, b] →
      renderTargets p.targets =
        ("<target>" ++ a ++ "</target>") ++ "\n        " ++ ("<target>" ++ b ++ "</target>")) := by
  refine ⟨?_, ?_, ?_, ?_⟩
  · unfold createLWCDirect lwcWriteResources
    rw [if_neg hv, hq]
    cases records with
    | nil =>
      dsimp only
      rw [hb]
      dsimp only
      rw [runResources_trace_allOk env.resourceR bid2 hf (lwcResources p) 0]
    | cons bid rest =>
      dsimp only
      rw [runResources_trace_allOk env.resourceR bid hf (lwcResources p) 0]
  · simp [metaXmlContent, String.append_assoc]
  · intro h
    simp [h, renderTargets, joinSep]
  · intro a b h
    simp [h, renderTargets, joinSep]

/-- Environment for the C8 witness. -/
def c8Env : LwcEnv :=
  { queryR := .ok [], bundleCreateR := .ok "bid8", resourceR := fun _ => .ok () }

/-- Request for the C8 witness: an empty target list. -/
def c8Req : CreateLWCRequest :=
  { componentName := "bar", masterLabel := "Bar", isExposed := some true,
    targets := some [], htmlContent := "<template></template>",
    jsContent := "export default class", apiVersion := none }

/-- Witness for C8 at a concrete request with an empty target list. -/
theorem manifest_rendering_witness :
    (createLWCDirect c8Env c8Req).2 =
      .ok (okResult ("Componente LWC '" ++ c8Req.componentName ++ "' creato/aggiornato con successo.")) ∧
    metaXmlContent c8Req =
      "<?xml version=\"1.0\" encoding=\"UTF-8\"?>\n<LightningComponentBundle xmlns=\"http://soap.sforce.com/2006/04/metadata\">\n    <apiVersion>" ++
        jsNumToString (jsNumOr c8Req.apiVersion 59) ++ "</apiVersion>\n    <isExposed>" ++
        jsOptBoolToString c8Req.isExposed ++ "</isExposed>\n    <masterLabel>" ++
        c8Req.masterLabel ++ "</masterLabel>\n    <targets>" ++
        renderTargets c8Req.targets ++ "</targets>\n</LightningComponentBundle>" ∧
    (c8Req.targets = some [] → renderTargets c8Req.targets = "") ∧
    (∀ a b, c8Req.targets = some [a, b] →
      renderTargets c8Req.targets =
        ("<target>" ++ a ++ "</target>") ++ "\n        " ++ ("<target>" ++ b ++ "</target>")) :=
  manifest_rendering c8Env c8Req [] "bid8" (by decide) rfl rfl (fun _ => rfl)

/-- C9: a required string parameter that is present but empty is falsy in
JS, so validation fails before any remote call is issued - the returned
trace is empty - and the thrown validation error names every empty
parameter as missing; consequently an empty body or file content is never
deployed. -/
theorem empty_string_param_fails_validation
    (envA : ApexEnv) (pA : CreateApexClassRequest)
    (envL : LwcEnv) (pL : CreateLWCRequest)
    (hA : pA.className = "" ∨ pA.body = "")
    (hL : pL.componentName = "" ∨ pL.htmlContent = "" ∨ pL.jsContent = "" ∨
      pL.masterLabel = "") :
    createApexClass envA pA =
      ([], .error (.validation "createApexClass" (apexMissingParams pA))) ∧
    (pA.className = "" → "className" ∈ apexMissingParams pA) ∧
    (pA.body = "" → "body" ∈ apexMissingParams pA) ∧
    createLWCDirect envL pL =
      ([], .error (.validation "createLWC" (lwcMissingParams pL))) ∧
    (pL.componentName = "" → "componentName" ∈ lwcMissingParams pL) ∧
    (pL.htmlContent = "" → "htmlContent" ∈ lwcMissingParams pL) ∧
    (pL.jsContent = "" → "jsContent" ∈ lwcMissingParams pL) ∧
    (pL.masterLabel = "" → "masterLabel" ∈ lwcMissingParams pL) := by
  have hL' : pL.componentName = "" ∨ pL.htmlContent = "" ∨ pL.jsContent = "" ∨
      pL.masterLabel = "" ∨ pL.isExposed = none := by tauto
  refine ⟨?_, ?_, ?_, ?_, ?_, ?_, ?_, ?_⟩
  · unfold createApexClass
    rw [if_pos hA]
  · intro h; simp [apexMissingParams, h]
  · intro h; simp [apexMissingParams, h]
  · unfold createLWCDirect
    rw [if_pos hL']
  · intro h; simp [lwcMissingParams, h]
  · intro h; simp [lwcMissingParams, h]
  · intro h; simp [lwcMissingParams, h]
  · intro h; simp [lwcMissingParams, h]

/-- Environment for the C9 witness, apex side. -/
def c9EnvA : ApexEnv :=
  { now := 8, containerR := .ok "ct9", queryR := .ok [], classCreateR := .ok "cls9",
    memberR := .ok (), triggerR := .ok "dep9", statusR := fun _ => .ok "Completed",
    deleteR := .ok () }

/-- Request for the C9 witness, apex side: body present but empty. -/
def c9ReqA : CreateApexClassRequest :=
  { className := "Foo", body := "", apiVersion := none }

/-- Environment for the C9 witness, LWC side. -/
def c9EnvL : LwcEnv :=
  { queryR := .ok [], bundleCreateR := .ok "bid9", resourceR := fun _ => .ok () }

/-- Request for the C9 witness, LWC side: htmlContent present but empty. -/
def c9ReqL : CreateLWCRequest :=
  { componentName := "bar", masterLabel := "Bar", isExposed := some true,
    targets := some [], htmlContent := "", jsContent := "export default class",
    apiVersion := none }

/-- Witness for C9: empty body and empty htmlContent each fail validation
with no remote call and with the parameter named. -/
theorem empty_string_param_fails_validation_witness :
    createApexClass c9EnvA c9ReqA =
      ([], .error (.validation "createApexClass" (apexMissingParams c9ReqA))) ∧
    (c9ReqA.className = "" → "className" ∈ apexMissingParams c9ReqA) ∧
    (c9ReqA.body = "" → "body" ∈ apexMissingParams c9ReqA) ∧
    createLWCDirect c9EnvL c9ReqL =
      ([], .error (.validation "createLWC" (lwcMissingParams c9ReqL))) ∧
    (c9ReqL.componentName = "" → "componentName" ∈ lwcMissingParams c9ReqL) ∧
    (c9ReqL.htmlContent = "" → "htmlContent" ∈ lwcMissingParams c9ReqL) ∧
    (c9ReqL.jsContent = "" → "jsContent" ∈ lwcMissingParams c9ReqL) ∧
    (c9ReqL.masterLabel = "" → "masterLabel" ∈ lwcMissingParams c9ReqL) :=
  empty_string_param_fails_validation c9EnvA c9ReqA c9EnvL c9ReqL
    (by decide) (by decide)

/-- C10: a supplied apiVersion equal to 0 is falsy for the JS default
operator, so the invocation behaves exactly as if apiVersion had been
omitted, and the effective version written to the created artifact and the
generated manifest is the fixed default 59. -/
theorem api_version_zero_defaults
    (envA : ApexEnv) (pA : CreateApexClassRequest)
    (envL : LwcEnv) (pL : CreateLWCRequest)
    (hA : pA.apiVersion = some 0) (hL : pL.apiVersion = some 0) :
    createApexClass envA pA = createApexClass envA { pA with apiVersion := none } ∧
    createLWCDirect envL pL = createLWCDirect envL { pL with apiVersion := none } ∧
    metaXmlContent pL = metaXmlContent { pL with apiVersion := none } ∧
    jsNumOr pA.apiVersion 59 = 59 ∧ jsNumOr pL.apiVersion 59 = 59 := by
  obtain ⟨cn, bd, av⟩ := pA
  obtain ⟨lcn, lml, lie, ltg, lh, lj, lav⟩ := pL
  simp only at hA hL
  subst hA
  subst hL
  exact ⟨rfl, rfl, rfl, rfl, rfl⟩

/-- Environment for the C10 witness, apex side. -/
def c10EnvA : ApexEnv :=
  { now := 9, containerR := .ok "ct10", queryR := .ok [], classCreateR := .ok "cls10",
    memberR := .ok (), triggerR := .ok "dep10", statusR := fun _ => .ok "Completed",
    deleteR := .ok () }

/-- Request for the C10 witness, apex side: apiVersion supplied as 0. -/
def c10ReqA : CreateApexClassRequest :=
  { className := "Foo", body := "class Foo", apiVersion := some 0 }

/-- Environment for the C10 witness, LWC side. -/
def c10EnvL : LwcEnv :=
  { queryR := .ok [], bundleCreateR := .ok "bid10", resourceR := fun _ => .ok () }

/-- Request for the C10 witness, LWC side: apiVersion supplied as 0. -/
def c10ReqL : CreateLWCRequest :=
  { componentName := "bar", masterLabel := "Bar", isExposed := some true,
    targets := some [], htmlContent := "<template></template>",
    jsContent := "export default class", apiVersion := some 0 }

/-- Witness for C10 at concrete requests with apiVersion 0. -/
theorem api_version_zero_defaults_witness :
    createApexClass c10EnvA c10ReqA =
      createApexClass c10EnvA { c10ReqA with apiVersion := none } ∧
    createLWCDirect c10EnvL c10ReqL =
      createLWCDirect c10EnvL { c10ReqL with apiVersion := none } ∧
    metaXmlContent c10ReqL = metaXmlContent { c10ReqL with apiVersion := none } ∧
    jsNumOr c10ReqA.apiVersion 59 = 59 ∧ jsNumOr c10ReqL.apiVersion 59 = 59 :=
  api_version_zero_defaults c10EnvA c10ReqA c10EnvL c10ReqL rfl rfl

end SfOrchestrator
